import Mathlib

/-!
Verification of the authorization core of `go-api-basic`
(`domain/auth/auth.go`), embedded shallowly in Lean 4.

The Go `context.Context` value chain is modelled as a list of
(key, value) entries where `context.WithValue` prepends an entry and
`Context.Value` returns the most recently attached value for a key.
A possibly-nil `*http.Request` is modelled as an `Option Request`.
The casbin `Enforcer.Enforce` operation is an arbitrary pure function
of (subject, object, action), as the spec stipulates.
-/

namespace auth

/-- The closed set of error kinds of the structured error model
(package `errs`). -/
inductive Kind where
  | Invalid
  | Unauthenticated
  | Unauthorized
  | NotFound
  | Exist
  | Internal
  | Unanticipated
deriving DecidableEq, Repr

/-- A classified failure: kind plus a displayable message. -/
structure StructuredError where
  kind : Kind
  msg : String
deriving DecidableEq, Repr

/-- Modelled from the spec: `errs.NewUnauthorizedError` (package
`domain/errs`, not included in the sources) builds a StructuredError of
kind Unauthorized carrying the message of the wrapped cause. -/
def NewUnauthorizedError (msg : String) : StructuredError :=
  { kind := Kind.Unauthorized, msg := msg }

/-- The subject of an authorization query (`user.User`); only the
`Email` field is consulted by `Authorize`. -/
structure User where
  Email : String
deriving DecidableEq, Repr

/-- `auth.WWWAuthenticateRealm`, a named protection domain. -/
abbrev WWWAuthenticateRealm := String

/-- `auth.DefaultRealm`: the realm used when one is not given explicitly. -/
def DefaultRealm : WWWAuthenticateRealm := "go-api-basic"

/-- `auth.BearerTokenType`. -/
def BearerTokenType : String := "Bearer"

/-- The unexported `auth.contextKey` values used by the package. -/
inductive contextKey where
  | realm
  | accessToken
deriving DecidableEq, Repr

/-- `auth.AccessToken`: a bearer credential with token and token type. -/
structure AccessToken where
  Token : String
  TokenType : String
deriving DecidableEq, Repr

/-- `auth.NewAccessToken`. -/
def NewAccessToken (token tokenType : String) : AccessToken :=
  { Token := token, TokenType := tokenType }

/-- The values the auth package stores in a context, tagged by their
dynamic type (a Go interface value). -/
inductive CtxVal where
  | realmVal (r : WWWAuthenticateRealm)
  | tokenVal (t : AccessToken)
deriving DecidableEq, Repr

/-- `context.Context` as the chain of values attached by `WithValue`. -/
abbrev Context := List (contextKey × CtxVal)

/-- `context.Context.Value`: the most recently attached value for a key. -/
def Context.Value (ctx : Context) (k : contextKey) : Option CtxVal :=
  match ctx with
  | [] => none
  | (k', v) :: rest => if k' = k then some v else Context.Value rest k

/-- `context.WithValue` returns a new context also carrying the value. -/
def Context.WithValue (ctx : Context) (k : contextKey) (v : CtxVal) : Context :=
  (k, v) :: ctx

/-- An `*http.Request` as far as this package consults it: its context. -/
structure Request where
  ctx : Context

/-- `auth.CtxWithRealm`. -/
def CtxWithRealm (ctx : Context) (realm : WWWAuthenticateRealm) : Context :=
  Context.WithValue ctx contextKey.realm (CtxVal.realmVal realm)

/-- `auth.RealmFromCtx`: the type assertion
`ctx.Value(contextKeyRealm).(WWWAuthenticateRealm)` yields the zero
value and `ok = false` when the key is absent or holds another type. -/
def RealmFromCtx (ctx : Context) : WWWAuthenticateRealm × Bool :=
  match Context.Value ctx contextKey.realm with
  | some (CtxVal.realmVal r) => (r, true)
  | _ => ("", false)

/-- `auth.RealmFromRequest`; `none` models a nil `*http.Request`. -/
def RealmFromRequest (r : Option Request) : WWWAuthenticateRealm × Bool :=
  match r with
  | none => ("", false)
  | some req => RealmFromCtx req.ctx

/-- `auth.CtxWithAccessToken`. -/
def CtxWithAccessToken (ctx : Context) (t : AccessToken) : Context :=
  Context.WithValue ctx contextKey.accessToken (CtxVal.tokenVal t)

/-- `auth.AccessTokenFromCtx`: the type assertion
`ctx.Value(contextKeyAccessToken).(AccessToken)` yields the zero value
and `ok = false` when the key is absent or holds another type. -/
def AccessTokenFromCtx (ctx : Context) : AccessToken × Bool :=
  match Context.Value ctx contextKey.accessToken with
  | some (CtxVal.tokenVal t) => (t, true)
  | _ => ({ Token := "", TokenType := "" }, false)

/-- `auth.AccessTokenFromRequest`; `none` models a nil `*http.Request`. -/
def AccessTokenFromRequest (r : Option Request) : AccessToken × Bool :=
  match r with
  | none => ({ Token := "", TokenType := "" }, false)
  | some req => AccessTokenFromCtx req.ctx

/-- `strings.HasPrefix s pre` (Go stdlib): `pre` is a prefix of `s`. -/
def HasPrefix (s pre : String) : Bool :=
  pre.data.isPrefixOf s.data

/-- `http.MethodGet`. -/
def MethodGet : String := "GET"

/-- The constant `moviesPath` of `CasbinAuthorizer.Authorize`. -/
def moviesPath : String := "/api/v1/movies"

/-- The constant `loggerPath` of `CasbinAuthorizer.Authorize`. -/
def loggerPath : String := "/api/v1/logger"

/-- The prefix canonicalization step of `Authorize`: the ordered
if / else-if / else chain that reassigns `obj` to the matched prefix, or
denies when no known prefix matches (`none`). -/
def canonicalObject (obj : String) : Option String :=
  if HasPrefix obj moviesPath then some moviesPath
  else if HasPrefix obj loggerPath then some loggerPath
  else none

/-- The verb canonicalization step of `Authorize`: the reassignment of
`act` to `"read"` for GET and `"write"` otherwise. -/
def canonicalAction (act : String) : String :=
  if act = MethodGet then "read" else "write"

/-- The denial message built by
`fmt.Sprintf("user %s does not have %s permission for %s", sub.Email, act, obj)`. -/
def authMsg (sub : User) (act obj : String) : String :=
  "user " ++ sub.Email ++ " does not have " ++ act ++ " permission for " ++ obj

/-- The type of the Policy Store operation
`casbin.Enforcer.Enforce(sub, obj, act)`. -/
abbrev Enforcer := String → String → String → Bool

/-- `CasbinAuthorizer.Authorize`: canonicalize the object path (deny
immediately when no known prefix matches), canonicalize the verb, then
query the enforcer; `none` is the nil (success) return. The zerolog
calls are output-irrelevant and not modelled. -/
def Authorize (enforce : Enforcer) (sub : User) (obj act : String) :
    Option StructuredError :=
  match canonicalObject obj with
  | none => some (NewUnauthorizedError (authMsg sub act obj))
  | some cobj =>
    let cact := canonicalAction act
    if enforce sub.Email cobj cact then none
    else some (NewUnauthorizedError (authMsg sub cact cobj))

end auth

namespace auth

theorem Context.Value_eq_none (ctx : Context) (k : contextKey)
    (h : ∀ v, (k, v) ∉ ctx) : Context.Value ctx k = none := by
  induction ctx with
  | nil => rfl
  | cons p rest ih =>
    obtain ⟨k', v⟩ := p
    unfold Context.Value
    have hk : ¬ k' = k := by
      intro hkk
      exact h v (hkk ▸ List.mem_cons_self _ _)
    rw [if_neg hk]
    exact ih (fun v2 hv2 => h v2 (List.mem_cons_of_mem _ hv2))

/-- C1: when no known prefix matches the object path, Authorize returns an
Unauthorized structured error and the result is independent of the enforce
function (the Policy Store is never queried). -/
theorem authorize_unknown_resource_denies (e1 e2 : Enforcer) (sub : User)
    (obj act : String)
    (hm : HasPrefix obj moviesPath = false)
    (hl : HasPrefix obj loggerPath = false) :
    Authorize e1 sub obj act =
      some { kind := Kind.Unauthorized, msg := authMsg sub act obj } ∧
    Authorize e1 sub obj act = Authorize e2 sub obj act := by
  unfold Authorize canonicalObject
  simp [hm, hl, NewUnauthorizedError]

theorem authorize_unknown_resource_denies_witness :
    Authorize (fun _ _ _ => true) ⟨"alice@example.com"⟩ "/api/v1/unknown-resource" "GET" =
      some { kind := Kind.Unauthorized,
             msg := authMsg ⟨"alice@example.com"⟩ "GET" "/api/v1/unknown-resource" } ∧
    Authorize (fun _ _ _ => true) ⟨"alice@example.com"⟩ "/api/v1/unknown-resource" "GET" =
      Authorize (fun _ _ _ => false) ⟨"alice@example.com"⟩ "/api/v1/unknown-resource" "GET" :=
  authorize_unknown_resource_denies _ _ _ _ _ (by decide) (by decide)

/-- C2: with a known-prefix object, Authorize succeeds exactly when the
enforcer allows (subject email, canonical object, canonical action), and the
canonical action is "read" exactly for the GET verb, "write" otherwise. -/
theorem authorize_canonical_action (e : Enforcer) (sub : User)
    (obj act cobj : String) (h : canonicalObject obj = some cobj) :
    (Authorize e sub obj act = none ↔
      e sub.Email cobj (canonicalAction act) = true) ∧
    (canonicalAction act = "read" ↔ act = MethodGet) ∧
    (act ≠ MethodGet → canonicalAction act = "write") := by
  refine ⟨?_, ?_, ?_⟩
  · unfold Authorize
    rw [h]
    by_cases he : e sub.Email cobj (canonicalAction act) <;> simp [he]
  · unfold canonicalAction
    by_cases hg : act = MethodGet <;> simp [hg]
  · intro hne
    unfold canonicalAction
    simp [hne]

theorem authorize_canonical_action_witness :
    (Authorize (fun _ _ _ => true) ⟨"alice@example.com"⟩ "/api/v1/movies/42" "POST" = none ↔
      (fun _ _ _ => true) "alice@example.com" moviesPath (canonicalAction "POST") = true) ∧
    (canonicalAction "POST" = "read" ↔ "POST" = MethodGet) ∧
    ("POST" ≠ MethodGet → canonicalAction "POST" = "write") :=
  authorize_canonical_action _ _ _ _ moviesPath (by decide)

/-- C3: the canonical object is the matched prefix itself, with the movies
prefix checked before the logger prefix, so a full path and its bare prefix
query the store identically and Authorize cannot distinguish them. -/
theorem authorize_canonical_object :
    (∀ obj, HasPrefix obj moviesPath = true → canonicalObject obj = some moviesPath) ∧
    (∀ obj, HasPrefix obj moviesPath = false → HasPrefix obj loggerPath = true →
      canonicalObject obj = some loggerPath) ∧
    canonicalObject "/api/v1/movies/123" = canonicalObject "/api/v1/movies" ∧
    (∀ e sub act, Authorize e sub "/api/v1/movies/123" act =
      Authorize e sub "/api/v1/movies" act) := by
  refine ⟨?_, ?_, by decide, ?_⟩
  · intro obj hm
    unfold canonicalObject
    rw [hm]
    rfl
  · intro obj hm hl
    unfold canonicalObject
    rw [hm, hl]
    rfl
  · intro e sub act
    unfold Authorize
    rw [show canonicalObject "/api/v1/movies/123" = some moviesPath from by decide,
        show canonicalObject "/api/v1/movies" = some moviesPath from by decide]

theorem authorize_canonical_object_witness :
    canonicalObject "/api/v1/movies/7" = some moviesPath ∧
    canonicalObject "/api/v1/logger/x" = some loggerPath :=
  ⟨authorize_canonical_object.1 _ (by decide),
   authorize_canonical_object.2.1 _ (by decide) (by decide)⟩

/-- C4: Authorize succeeds exactly when a known prefix matches and the
enforcer allows; every error it returns has kind Unauthorized. -/
theorem authorize_result_classification (e : Enforcer) (sub : User)
    (obj act : String) :
    (Authorize e sub obj act = none ↔
      ∃ cobj, canonicalObject obj = some cobj ∧
        e sub.Email cobj (canonicalAction act) = true) ∧
    (∀ err, Authorize e sub obj act = some err → err.kind = Kind.Unauthorized) := by
  unfold Authorize
  cases h : canonicalObject obj with
  | none =>
    constructor
    · simp
    · intro err herr
      simp at herr
      rw [← herr]
      rfl
  | some cobj =>
    constructor
    · by_cases he : e sub.Email cobj (canonicalAction act) <;> simp [he]
    · intro err herr
      by_cases he : e sub.Email cobj (canonicalAction act) <;> simp [he] at herr
      rw [← herr]
      rfl

theorem authorize_result_classification_witness :
    (NewUnauthorizedError (authMsg ⟨"a@b.c"⟩ "GET" "/nope")).kind = Kind.Unauthorized :=
  (authorize_result_classification (fun _ _ _ => false) ⟨"a@b.c"⟩ "/nope" "GET").2
    (NewUnauthorizedError (authMsg ⟨"a@b.c"⟩ "GET" "/nope")) (by decide)

/-- C5: against an unchanged Policy Store (extensionally equal enforce
functions), Authorize is deterministic in (subject, object, verb). -/
theorem authorize_deterministic (e1 e2 : Enforcer) (sub : User)
    (obj act : String) (h : ∀ s o a, e1 s o a = e2 s o a) :
    Authorize e1 sub obj act = Authorize e2 sub obj act := by
  unfold Authorize
  cases canonicalObject obj <;> simp [h]

theorem authorize_deterministic_witness :
    Authorize (fun _ _ a => a == "read") ⟨"alice@example.com"⟩ "/api/v1/movies" "GET" =
    Authorize (fun _ _ a => "read" == a) ⟨"alice@example.com"⟩ "/api/v1/movies" "GET" :=
  authorize_deterministic _ _ _ _ _ (fun _ _ a => by simp [BEq.comm])

/-- C6: attaching then retrieving an AccessToken returns exactly the attached
value with found = true; retrieving from a context where none was ever
attached returns the zero token with found = false. -/
theorem accessToken_roundtrip (ctx : Context) (t : AccessToken) :
    AccessTokenFromCtx (CtxWithAccessToken ctx t) = (t, true) ∧
    ((∀ v, (contextKey.accessToken, v) ∉ ctx) →
      AccessTokenFromCtx ctx = ({ Token := "", TokenType := "" }, false)) := by
  constructor
  · rfl
  · intro h
    unfold AccessTokenFromCtx
    rw [Context.Value_eq_none ctx _ h]

theorem accessToken_roundtrip_witness :
    AccessTokenFromCtx (CtxWithAccessToken [] ⟨"abcdef123", "Bearer"⟩) =
      (⟨"abcdef123", "Bearer"⟩, true) ∧
    AccessTokenFromCtx [] = ({ Token := "", TokenType := "" }, false) :=
  ⟨(accessToken_roundtrip [] ⟨"abcdef123", "Bearer"⟩).1,
   (accessToken_roundtrip [] ⟨"abcdef123", "Bearer"⟩).2
     (fun _ hv => (List.not_mem_nil _ hv))⟩

/-- C7 counterexample: retrieving the realm from a context with no realm
attached reports found = false and does not return the default realm. -/
theorem realm_default_counterexample :
    (RealmFromCtx ([] : Context)).2 = false ∧
    (RealmFromCtx ([] : Context)).1 ≠ DefaultRealm := by decide

/-- C7 amended: realm retrieval from a context with no realm attached
returns the zero realm with found = false; the constant DefaultRealm
("go-api-basic") is left for callers to apply as a fallback. -/
theorem realmFromCtx_absent (ctx : Context)
    (h : ∀ v, (contextKey.realm, v) ∉ ctx) :
    RealmFromCtx ctx = ("", false) ∧ DefaultRealm = "go-api-basic" := by
  constructor
  · unfold RealmFromCtx
    rw [Context.Value_eq_none ctx _ h]
  · rfl

theorem realmFromCtx_absent_witness :
    RealmFromCtx [] = ("", false) ∧ DefaultRealm = "go-api-basic" :=
  realmFromCtx_absent [] (fun _ hv => (List.not_mem_nil _ hv))

/-- C8: an AccessToken attached with an empty Token string is retrieved with
found = true, the same success flag as a non-empty token. -/
theorem accessToken_empty_token_success :
    AccessTokenFromCtx (CtxWithAccessToken [] { Token := "", TokenType := BearerTokenType }) =
      ({ Token := "", TokenType := BearerTokenType }, true) ∧
    (AccessTokenFromCtx (CtxWithAccessToken [] { Token := "", TokenType := BearerTokenType })).2 =
      (AccessTokenFromCtx (CtxWithAccessToken [] { Token := "abcdef123", TokenType := BearerTokenType })).2 := by
  decide

/-- C9 counterexample: on the step-1 failure the denial message is built
from the raw verb (here GET), and differs from the message built from the
canonical action. -/
theorem authorize_message_counterexample :
    Authorize (fun _ _ _ => false) ⟨"alice@example.com"⟩ "/api/v1/unknown-resource" "GET" =
      some (NewUnauthorizedError
        (authMsg ⟨"alice@example.com"⟩ "GET" "/api/v1/unknown-resource")) ∧
    authMsg ⟨"alice@example.com"⟩ "GET" "/api/v1/unknown-resource" ≠
      authMsg ⟨"alice@example.com"⟩ (canonicalAction "GET") "/api/v1/unknown-resource" ∧
    ¬ ("read".data <:+: (authMsg ⟨"alice@example.com"⟩ "GET" "/api/v1/unknown-resource").data) := by
  set_option maxRecDepth 4000 in
  refine ⟨by decide, by decide, by decide⟩

/-- C9 amended: denials after a prefix match carry a message naming the
subject, the canonical action and the canonical object; the step-1 failure
carries a message naming the subject, the raw verb and the raw path. -/
theorem authorize_denial_message (e : Enforcer) (sub : User) (obj act : String) :
    (∀ cobj, canonicalObject obj = some cobj →
      ∀ err, Authorize e sub obj act = some err →
        err = NewUnauthorizedError (authMsg sub (canonicalAction act) cobj)) ∧
    (canonicalObject obj = none →
      Authorize e sub obj act = some (NewUnauthorizedError (authMsg sub act obj))) := by
  constructor
  · intro cobj hc err herr
    unfold Authorize at herr
    rw [hc] at herr
    by_cases he : e sub.Email cobj (canonicalAction act) <;> simp [he] at herr
    exact herr.symm
  · intro hc
    unfold Authorize
    rw [hc]

theorem authorize_denial_message_witness :
    NewUnauthorizedError (authMsg ⟨"alice@example.com"⟩ (canonicalAction "POST") moviesPath) =
      NewUnauthorizedError (authMsg ⟨"alice@example.com"⟩ (canonicalAction "POST") moviesPath) ∧
    Authorize (fun _ _ _ => false) ⟨"alice@example.com"⟩ "/api/v1/unknown-resource" "GET" =
      some (NewUnauthorizedError (authMsg ⟨"alice@example.com"⟩ "GET" "/api/v1/unknown-resource")) :=
  ⟨(authorize_denial_message (fun _ _ _ => false) ⟨"alice@example.com"⟩ "/api/v1/movies" "POST").1
      moviesPath (by decide) _ (by decide),
   (authorize_denial_message (fun _ _ _ => false) ⟨"alice@example.com"⟩ "/api/v1/unknown-resource" "GET").2
      (by decide)⟩

/-- C10: calling RealmFromRequest or AccessTokenFromRequest with a nil
request returns the zero value and found = false. -/
theorem nil_request_safe :
    RealmFromRequest none = ("", false) ∧
    AccessTokenFromRequest none = ({ Token := "", TokenType := "" }, false) := by
  decide

end auth
